import Mathlib

/-!
Verification of the lobby backend RBAC layer and one-time-code store.

The definitions below are a shallow embedding of the Python sources:

* `src/tools/permissions/base.py` — `HasWorkspacePermission.has_permission`
  and `HasProjectPermission.has_permission`;
* `src/tools/permissions/defaults.py` — `DEFAULT_ROLE_PERMISSIONS`;
* `src/workspace/views.py` — `ChangeWorkspaceRoleAPIView.patch` and
  `WorkspaceOwnerChangeAPIView.post` (with `get_user_and_member`);
* `src/core/services/auth_codes.py` — `store_code`, `verify_code`,
  `peek_code`, `can_send`.

Django model rows are embedded as structures carrying the fields that the
embedded operations read or write; identities (users, workspaces, roles,
projects) are natural-number primary keys.  Django `Model.objects.get` /
`filter(...).first()` become `List.find?` on the row lists of a `DB`
snapshot (the `unique_together` constraints of the models make the first
match the unique match).  Python exceptions that the code does not catch
are made explicit with `Except`.
-/

namespace Lobby

/-- Python truthiness of an optional integer field: `None` and `0` are falsy. -/
def truthyNat : Option Nat → Bool
  | none => false
  | some n => n != 0

/-- Python truthiness of an optional string field: `None` and `""` are falsy. -/
def truthyStr : Option String → Bool
  | none => false
  | some s => s != ""

/-- Python `a or b` on optional integers (used for `view.kwargs.get(..) or request.data.get(..)`). -/
def pyOrNat (a b : Option Nat) : Option Nat :=
  if truthyNat a then a else b

/-- Python `a or b` on optional strings. -/
def pyOrStr (a b : Option String) : Option String :=
  if truthyStr a then a else b

/-- A JSON object of boolean capability flags, as stored in `WorkspaceRole.settings`. -/
abbrev Settings := List (String × Bool)

/-- Python `settings.get(key, False)` on a capability map. -/
def settingsGet (s : Settings) (key : String) : Bool :=
  match s.find? (fun p => p.1 == key) with
  | some p => p.2
  | none => false

/-- Row of `accounts.models.User` (only the fields the embedded views read). -/
structure UserRow where
  id : Nat
  email : String
deriving DecidableEq

/-- Row of `workspace.models.Workspace` (authorization-relevant fields;
name, description, currency and the avatar fields are never read by the
embedded operations and are omitted). -/
structure WorkspaceRow where
  id : Nat
  owner : Nat
  is_active : Bool
deriving DecidableEq

/-- Row of `workspace.models.WorkspaceRole`. -/
structure WorkspaceRoleRow where
  id : Nat
  name : String
  workspace : Nat
  settings : Settings
deriving DecidableEq

/-- Row of `workspace.models.WorkspaceMember`.  The `role` foreign key is
nullable (`null=True, on_delete=SET_NULL` in the model), and is embedded as
the referenced role row itself, matching the `select_related("role")`
access pattern of the permission code. -/
structure WorkspaceMemberRow where
  id : Nat
  user : Nat
  workspace : Nat
  role : Option WorkspaceRoleRow
  is_active : Bool
deriving DecidableEq

/-- Row of `project.models.Project`.  Faithful to `src/project/models.py`:
the model declares `name`, `key`, `description`, `workspace`, `is_public`,
`is_billable`, `is_active`, avatar fields and timestamps — and **no owner
field** (the permission and view code nevertheless read `project.owner`;
see `srcProjectOwnerRead`). -/
structure ProjectRow where
  id : Nat
  workspace : Nat
  is_public : Bool
  is_billable : Bool
  is_active : Bool
deriving DecidableEq

/-- Row of `project.models.ProjectMember`. -/
structure ProjectMemberRow where
  user : Nat
  project : Nat
  is_active : Bool
deriving DecidableEq

/-- A snapshot of the relational store. -/
structure DB where
  users : List UserRow
  workspaces : List WorkspaceRow
  roles : List WorkspaceRoleRow
  members : List WorkspaceMemberRow
  projects : List ProjectRow
  projectMembers : List ProjectMemberRow
deriving DecidableEq

/-- Uncaught Python exceptions surfaced by the embedded code. -/
inductive PyErr where
  | attributeError
deriving DecidableEq

/-- `Workspace.objects.get(id=workspace_id)` / `filter(id=..).first()`. -/
def findWorkspace (db : DB) (wid : Nat) : Option WorkspaceRow :=
  db.workspaces.find? (fun w => w.id == wid)

/-- `WorkspaceMember.objects.get(user=.., workspace=..)` — note: no
`is_active` filter (unique by the model's `unique_together`). -/
def findWorkspaceMember (db : DB) (uid wid : Nat) : Option WorkspaceMemberRow :=
  db.members.find? (fun m => m.user == uid && m.workspace == wid)

/-- `WorkspaceMember.objects.get(user=.., workspace=.., is_active=True)`. -/
def findActiveWorkspaceMember (db : DB) (uid wid : Nat) : Option WorkspaceMemberRow :=
  db.members.find? (fun m => m.user == uid && m.workspace == wid && m.is_active)

/-- `Project.objects.get(id=project_id)`. -/
def findProject (db : DB) (pid : Nat) : Option ProjectRow :=
  db.projects.find? (fun p => p.id == pid)

/-- `ProjectMember.objects.filter(project=.., user=.., is_active=True).exists()`. -/
def isActiveProjectMember (db : DB) (pid uid : Nat) : Bool :=
  db.projectMembers.any (fun pm => pm.project == pid && pm.user == uid && pm.is_active)

/-- `User.objects.filter(id=..).first()`. -/
def findUserById (db : DB) (uid : Nat) : Option UserRow :=
  db.users.find? (fun u => u.id == uid)

/-- `User.objects.filter(email=..).first()`. -/
def findUserByEmail (db : DB) (e : String) : Option UserRow :=
  db.users.find? (fun u => u.email == e)

/-- Modelled from the spec: `DEFAULT_ALWAYS_ALLOWED_PERMISSIONS`, which
`tools/permissions/base.py` imports from `tools.permissions.constants`, a
module absent from the sources.  Spec section 4.4 step 4 describes it as
the capabilities every active member has regardless of role, giving the
example of viewing base membership data; the seeded role maps of
`defaults.py` carry no `can_view_workspace` key, so the GET-fallback
workspace capability must come from this set for member reads to work.
`can_view_project` cannot belong to it, or the project-visibility branch
of `HasProjectPermission` (project membership / public flag) would be
unreachable. -/
def DEFAULT_ALWAYS_ALLOWED_PERMISSIONS : List String :=
  ["can_view_workspace"]

/-- `HasWorkspacePermission.METHOD_PERMISSION_MAP.get(method)`. -/
def workspaceMethodPermission (method : String) : Option String :=
  if method == "GET" then some "can_view_workspace"
  else if method == "PUT" then some "can_edit_workspace"
  else none

/-- `HasProjectPermission.METHOD_PERMISSION_MAP.get(method)`. -/
def projectMethodPermission (method : String) : Option String :=
  if method == "GET" then some "can_view_project"
  else if method == "PUT" then some "can_edit_project"
  else none

/-- `HasWorkspacePermission.has_permission` (src/tools/permissions/base.py,
lines 13–44), for an authenticated `user`.  Inputs mirror
`view.kwargs.get("workspace_id")`, `request.data.get("workspace")` and
`getattr(view, "required_workspace_permission", None)`.  The member lookup
deliberately mirrors the source in carrying no `is_active` filter, and
`member.role.settings` on a null role surfaces as `PyErr.attributeError`. -/
def hasWorkspacePermission (db : DB) (user : Nat) (method : String)
    (kwargsWorkspaceId dataWorkspaceId : Option Nat)
    (requiredWorkspacePermission : Option String) : Except PyErr Bool :=
  let workspaceId := pyOrNat kwargsWorkspaceId dataWorkspaceId
  if truthyNat workspaceId then
    match findWorkspace db (workspaceId.getD 0) with
    | none => .ok false
    | some workspace =>
      if workspace.owner == user then .ok true
      else
        match findWorkspaceMember db user workspace.id with
        | none => .ok false
        | some member =>
          let required := pyOrStr requiredWorkspacePermission (workspaceMethodPermission method)
          if truthyStr required then
            let req := required.getD ""
            if DEFAULT_ALWAYS_ALLOWED_PERMISSIONS.contains req then .ok true
            else
              match member.role with
              | none => .error .attributeError
              | some role => .ok (settingsGet role.settings req)
          else .ok false
  else .ok false

/-- The attribute read `project.owner` performed by
`HasProjectPermission.has_permission` (base.py line 66), executed against
the `Project` model of `src/project/models.py`: the model declares no
`owner` field, so the read raises `AttributeError`. -/
def srcProjectOwnerRead : ProjectRow → Except PyErr Nat :=
  fun _ => .error .attributeError

/-- Modelled from the spec: the `owner (User)` field that the spec's data
model lists on `Project` and that `base.py`, `project/views.py` and
`project/serializers.py` all read, but which `src/project/models.py` does
not declare.  `projectOwner` maps a project id to its owning user id. -/
def specProjectOwnerRead (projectOwner : Nat → Nat) : ProjectRow → Except PyErr Nat :=
  fun p => .ok (projectOwner p.id)

/-- `HasProjectPermission.has_permission` (src/tools/permissions/base.py,
lines 48–96), parameterized by the `project.owner` attribute read
(`ownerRead`), for an authenticated `user`. -/
def hasProjectPermissionCore (ownerRead : ProjectRow → Except PyErr Nat)
    (db : DB) (user : Nat) (method : String)
    (kwargsProjectId dataProjectId : Option Nat)
    (requiredProjectPermission : Option String) : Except PyErr Bool :=
  let projectId := pyOrNat kwargsProjectId dataProjectId
  if truthyNat projectId then
    match findProject db (projectId.getD 0) with
    | none => .ok false
    | some project =>
      match ownerRead project with
      | .error e => .error e
      | .ok projectOwner =>
        if projectOwner == user then .ok true
        else
          match findActiveWorkspaceMember db user project.workspace with
          | none => .ok false
          | some workspaceMember =>
            let required := pyOrStr requiredProjectPermission (projectMethodPermission method)
            if truthyStr required then
              let req := required.getD ""
              if DEFAULT_ALWAYS_ALLOWED_PERMISSIONS.contains req then .ok true
              else
                let roleSettings :=
                  match workspaceMember.role with
                  | some role => role.settings
                  | none => []
                let isProjectMember := isActiveProjectMember db project.id user
                if req == "can_view_project" &&
                    (isProjectMember ||
                      (project.is_public && settingsGet roleSettings "can_view_public_projects")) then
                  .ok true
                else .ok (settingsGet roleSettings req)
            else .ok false
  else .ok false

/-- The project permission check as it would run with the spec's
`Project.owner` field in place. -/
def hasProjectPermission (projectOwner : Nat → Nat) (db : DB) (user : Nat)
    (method : String) (kwargsProjectId dataProjectId : Option Nat)
    (requiredProjectPermission : Option String) : Except PyErr Bool :=
  hasProjectPermissionCore (specProjectOwnerRead projectOwner) db user method
    kwargsProjectId dataProjectId requiredProjectPermission

/-- The project permission check as it runs against the `Project` model
actually declared in `src/project/models.py` (no `owner` field). -/
def hasProjectPermissionSrc (db : DB) (user : Nat) (method : String)
    (kwargsProjectId dataProjectId : Option Nat)
    (requiredProjectPermission : Option String) : Except PyErr Bool :=
  hasProjectPermissionCore srcProjectOwnerRead db user method
    kwargsProjectId dataProjectId requiredProjectPermission

/-- `DEFAULT_ROLE_PERMISSIONS["admin"]` (src/tools/permissions/defaults.py). -/
def adminRolePermissions : Settings :=
  [("can_edit_workspace", true),
   ("can_delete_workspace", true),
   ("can_change_role_in_workspace", true),
   ("can_invite_users_to_workspace", true),
   ("can_deactivate_users_in_workspace", true),
   ("can_create_projects", true),
   ("can_edit_projects", true),
   ("can_delete_projects", true),
   ("can_view_public_projects", true),
   ("can_invite_users_to_project", true),
   ("can_deactivate_users_in_project", true),
   ("can_view_reports", true)]

/-- `DEFAULT_ROLE_PERMISSIONS["user"]` (src/tools/permissions/defaults.py). -/
def userRolePermissions : Settings :=
  [("can_edit_workspace", false),
   ("can_delete_workspace", false),
   ("can_change_role_in_workspace", false),
   ("can_invite_users_to_workspace", false),
   ("can_deactivate_users_in_workspace", false),
   ("can_create_projects", true),
   ("can_edit_projects", false),
   ("can_delete_projects", false),
   ("can_view_public_projects", true),
   ("can_invite_users_to_project", false),
   ("can_deactivate_users_in_project", false),
   ("can_view_reports", true)]

/-- `DEFAULT_ROLE_PERMISSIONS["client"]` (src/tools/permissions/defaults.py). -/
def clientRolePermissions : Settings :=
  [("can_edit_workspace", false),
   ("can_delete_workspace", false),
   ("can_change_role_in_workspace", false),
   ("can_invite_users_to_workspace", false),
   ("can_deactivate_users_in_workspace", false),
   ("can_create_projects", false),
   ("can_edit_projects", false),
   ("can_delete_projects", false),
   ("can_view_public_projects", false),
   ("can_invite_users_to_project", false),
   ("can_deactivate_users_in_project", false),
   ("can_view_reports", true)]

/-- `DEFAULT_ROLE_PERMISSIONS` (src/tools/permissions/defaults.py): the
capability maps seeded into the three roles of every new workspace by
`Workspace.save`. -/
def DEFAULT_ROLE_PERMISSIONS : List (String × Settings) :=
  [("admin", adminRolePermissions),
   ("user", userRolePermissions),
   ("client", clientRolePermissions)]

/-- `AddWorkspaceMemberAPIView.required_workspace_permission`
(src/workspace/views.py line 84); `BaseToggleWorkspaceMemberAPIView` uses
the same string (line 207). -/
def addWorkspaceMemberRequiredPermission : String := "can_invite_users"

/-- `ChangeWorkspaceRoleAPIView.required_workspace_permission`
(src/workspace/views.py line 322). -/
def changeWorkspaceRoleRequiredPermission : String := "can_change_roles"

/-- Python `sum(bool(x) for x in provided)`. -/
def countTruthy (l : List Bool) : Nat :=
  (l.filter (fun b => b)).length

/-- Python `str.strip()`: drop leading and trailing whitespace (ASCII
whitespace, which covers the role-name strings involved). -/
def pyStrip (s : String) : String :=
  String.mk (((s.data.dropWhile Char.isWhitespace).reverse.dropWhile
    Char.isWhitespace).reverse)

/-- Python `str.lower()` (ASCII lowering, which covers the role-name
strings involved). -/
def pyLower (s : String) : String :=
  String.mk (s.data.map Char.toLower)

/-- `member.role = new_role; member.save(update_fields=["role"])`: persist a
new role on the member row with the given primary key. -/
def updateMemberRole (db : DB) (memberId : Nat) (newRole : Option WorkspaceRoleRow) : DB :=
  { db with members := db.members.map (fun m =>
      if m.id == memberId then { m with role := newRole } else m) }

/-- `workspace.owner = user; workspace.save(update_fields=["owner"])`. -/
def updateWorkspaceOwner (db : DB) (wid newOwner : Nat) : DB :=
  { db with workspaces := db.workspaces.map (fun w =>
      if w.id == wid then { w with owner := newOwner } else w) }

/-- `ChangeWorkspaceRoleAPIView.patch` (src/workspace/views.py lines
324–397), after the permission gate has passed.  Returns the HTTP status
and the resulting store.  `target_member.role.name` on a null role
surfaces as `PyErr.attributeError`. -/
def changeWorkspaceRolePatch (db : DB) (requestUser workspaceId : Nat)
    (userId : Option Nat) (email : Option String) (newRole : Option String) :
    Except PyErr (Nat × DB) :=
  match findWorkspace db workspaceId with
  | none => .ok (400, db)
  | some workspace =>
    if countTruthy [truthyNat userId, truthyStr email] != 1 then .ok (400, db)
    else
      match newRole with
      | none => .ok (400, db)
      | some s =>
        if pyStrip s == "" then .ok (400, db)
        else
          let newRoleName := pyLower (pyStrip s)
          match db.roles.find? (fun r => r.workspace == workspace.id && r.name == newRoleName) with
          | none => .ok (400, db)
          | some newRoleRow =>
            let targetUser :=
              if truthyNat userId then findUserById db (userId.getD 0)
              else findUserByEmail db (email.getD "")
            match targetUser with
            | none => .ok (400, db)
            | some target =>
              match db.members.find? (fun m => m.workspace == workspace.id && m.user == target.id) with
              | none => .ok (400, db)
              | some targetMember =>
                if !targetMember.is_active then .ok (400, db)
                else
                  match targetMember.role with
                  | none => .error .attributeError
                  | some targetRole =>
                    if targetRole.name == "admin" && workspace.owner != requestUser then
                      .ok (403, db)
                    else .ok (200, updateMemberRole db targetMember.id (some newRoleRow))

/-- The role-change endpoint as dispatched: `IsAuthenticated` (the actor id
is given) and `HasWorkspacePermission` with
`required_workspace_permission = "can_change_roles"` run first — a `False`
answer is a 403 — and only then `ChangeWorkspaceRoleAPIView.patch`. -/
def changeWorkspaceRoleEndpoint (db : DB) (requestUser workspaceId : Nat)
    (userId : Option Nat) (email : Option String) (newRole : Option String) :
    Except PyErr (Nat × DB) :=
  match hasWorkspacePermission db requestUser "PATCH" (some workspaceId) none
      (some changeWorkspaceRoleRequiredPermission) with
  | .error e => .error e
  | .ok false => .ok (403, db)
  | .ok true => changeWorkspaceRolePatch db requestUser workspaceId userId email newRole

/-- `WorkspaceOwnerChangeAPIView.get_user_and_member` (src/workspace/views.py
lines 471–509): resolves the target user id and membership row from exactly
one of user id, email, or member id; the source's `(user, member, error)`
triple is embedded as `Except errorMessage (userId, member)` — exactly one
of `member`/`error` is populated on each source return path. -/
def getUserAndMember (db : DB) (userId : Option Nat) (email : Option String)
    (memberId : Option Nat) (workspace : WorkspaceRow) :
    Except String (Nat × WorkspaceMemberRow) :=
  if truthyNat memberId then
    match db.members.find? (fun m => m.id == memberId.getD 0 && m.workspace == workspace.id) with
    | none => .error "The specified user was found, but they are not a member of this workspace."
    | some member => .ok (member.user, member)
  else
    let userRow :=
      if truthyStr email then findUserByEmail db (email.getD "")
      else if truthyNat userId then findUserById db (userId.getD 0)
      else none
    match userRow with
    | none => .error "User not found."
    | some u =>
      match db.members.find? (fun m => m.user == u.id && m.workspace == workspace.id) with
      | none => .error "The specified user was found, but they are not a member of this workspace."
      | some member => .ok (u.id, member)

/-- `WorkspaceOwnerChangeAPIView.post` (src/workspace/views.py lines
511–564).  Validates that exactly one identifier is provided, requires the
per-workspace admin role and a resolvable member, then assigns the admin
role to the new owner's membership and flips `workspace.owner`.  The
handler itself performs no check on the requesting user and touches no
membership row of the outgoing owner. -/
def workspaceOwnerChangePost (db : DB) (workspaceId : Nat)
    (newOwnerId : Option Nat) (newOwnerEmail : Option String)
    (newMemberId : Option Nat) : Nat × DB :=
  match findWorkspace db workspaceId with
  | none => (400, db)
  | some workspace =>
    if countTruthy [truthyNat newOwnerId, truthyStr newOwnerEmail, truthyNat newMemberId] != 1 then
      (400, db)
    else
      match db.roles.find? (fun r => r.name == "admin" && r.workspace == workspace.id) with
      | none => (400, db)
      | some adminRole =>
        match getUserAndMember db newOwnerId newOwnerEmail newMemberId workspace with
        | .error _ => (400, db)
        | .ok (newOwner, member) =>
          let db1 := updateMemberRole db member.id (some adminRole)
          let db2 := updateWorkspaceOwner db1 workspace.id newOwner
          (200, db2)

/-! ### One-time verification codes (src/core/services/auth_codes.py)

The Django cache named `auth_codes` is embedded per key family: the module
uses disjoint keys `auth:pr:code:{user_id}`, `auth:pr:attempts:{user_id}`
and `auth:pr:throttle:{email}`, so the cache state is three maps.  Entries
carry their value together with the timeout (in seconds) they were set
with; `sha256(SALT + code)` is kept abstract as a hash function parameter
`h`. -/

/-- `CODE_TTL` (src/core/services/auth_codes.py line 6). -/
def CODE_TTL : Nat := 600

/-- `THROTTLE_TTL` (src/core/services/auth_codes.py line 7). -/
def THROTTLE_TTL : Nat := 60

/-- `MAX_ATTEMPTS` (src/core/services/auth_codes.py line 8). -/
def MAX_ATTEMPTS : Nat := 5

/-- State of the `auth_codes` cache: stored code hash, attempt counter and
issuance throttle, each together with the timeout the entry was set with. -/
structure AuthCodeCache where
  code : Nat → Option (String × Nat)
  attempts : Nat → Option (Nat × Nat)
  throttle : String → Option Nat

/-- Point update of a cache map (`CACHE.set` / `CACHE.delete`). -/
def updFun {α : Type} (f : Nat → Option α) (k : Nat) (v : Option α) : Nat → Option α :=
  fun i => if i = k then v else f i

/-- The empty cache. -/
def emptyAuthCache : AuthCodeCache :=
  { code := fun _ => none, attempts := fun _ => none, throttle := fun _ => none }

/-- `store_code(user_id, code)`: `CACHE.set(code_key, _hash(code), timeout=CODE_TTL)`
then `CACHE.delete(attempts_key)`. -/
def store_code (h : String → String) (s : AuthCodeCache) (userId : Nat)
    (code : String) : AuthCodeCache :=
  { s with
    code := updFun s.code userId (some (h code, CODE_TTL))
    attempts := updFun s.attempts userId none }

/-- `verify_code(user_id, code)`.  Line by line:
`attempts = CACHE.incr(k) if CACHE.get(k) else (CACHE.set(k, 1, CODE_TTL) or 1)`
— a truthy (nonzero) existing counter is incremented keeping its timeout,
otherwise the counter is created at 1 with the 600s expiry (`CACHE.set`
returns `None`, so the `or` yields 1); `if attempts > MAX_ATTEMPTS: return
False` before any comparison; `if not stored: return False` covers a
missing or empty stored hash; on a constant-time match both the stored
hash and the counter are deleted (`CACHE.delete_many`). -/
def verify_code (h : String → String) (s : AuthCodeCache) (userId : Nat)
    (code : String) : Bool × AuthCodeCache :=
  let incrStep : Nat × AuthCodeCache :=
    match s.attempts userId with
    | some (n, ttl) =>
      if n != 0 then
        (n + 1, { s with attempts := updFun s.attempts userId (some (n + 1, ttl)) })
      else
        (1, { s with attempts := updFun s.attempts userId (some (1, CODE_TTL)) })
    | none => (1, { s with attempts := updFun s.attempts userId (some (1, CODE_TTL)) })
  let attemptCount := incrStep.1
  let s1 := incrStep.2
  if attemptCount > MAX_ATTEMPTS then (false, s1)
  else
    match s1.code userId with
    | none => (false, s1)
    | some (stored, _) =>
      if stored == "" then (false, s1)
      else if stored == h code then
        (true, { s1 with
          code := updFun s1.code userId none
          attempts := updFun s1.attempts userId none })
      else (false, s1)

/-- `peek_code(user_id, code)`: the same comparison without any mutation. -/
def peek_code (h : String → String) (s : AuthCodeCache) (userId : Nat)
    (code : String) : Bool :=
  match s.code userId with
  | none => false
  | some (stored, _) =>
    if stored == "" then false
    else stored == h code

/-- `can_send(email)`: `CACHE.add(throttle_key, "1", timeout=THROTTLE_TTL)` —
true and a new 60s window iff no window is active for the lowercased
address. -/
def can_send (s : AuthCodeCache) (email : String) : Bool × AuthCodeCache :=
  match s.throttle email.toLower with
  | some _ => (false, s)
  | none =>
    (true, { s with throttle := fun e =>
      if e = email.toLower then some THROTTLE_TTL else s.throttle e })

/-- C1 helper database: workspace 1 owned by user 10, who also holds an
inactive membership row with a null role. -/
def c1DB : DB :=
  { users := [⟨10, "owner@example.com"⟩]
    workspaces := [⟨1, 10, true⟩]
    roles := []
    members := [⟨1, 10, 1, none, false⟩]
    projects := []
    projectMembers := [] }

/-- C2 helper: the seeded admin role of workspace 1. -/
def c2AdminRole : WorkspaceRoleRow :=
  ⟨5, "admin", 1, adminRolePermissions⟩

/-- C2 helper database: workspace 1 owned by user 10; user 2 holds a
**deactivated** membership (`is_active = false`) whose stored role is the
seeded admin role (which grants `can_edit_workspace`). -/
def c2DB : DB :=
  { users := [⟨10, "owner@example.com"⟩, ⟨2, "deactivated@example.com"⟩]
    workspaces := [⟨1, 10, true⟩]
    roles := [c2AdminRole]
    members := [⟨1, 2, 1, some c2AdminRole, false⟩]
    projects := []
    projectMembers := [] }

/-- C6 helper database: workspace 1 owned by user 10; user 2 holds an
active membership whose `role` foreign key is null. -/
def c6DB : DB :=
  { users := [⟨10, "owner@example.com"⟩, ⟨2, "roleless@example.com"⟩]
    workspaces := [⟨1, 10, true⟩]
    roles := []
    members := [⟨1, 2, 1, none, true⟩]
    projects := []
    projectMembers := [] }

/-- C4 helper database: workspace 1 owned by user 10 and a project with
id 1 inside it.  Under the spec's data model user 10 is also the owner of
project 1 (`c4ProjectOwner`). -/
def c4DB : DB :=
  { users := [⟨10, "owner@example.com"⟩]
    workspaces := [⟨1, 10, true⟩]
    roles := []
    members := []
    projects := [⟨1, 1, true, true, true⟩]
    projectMembers := [] }

/-- C4 helper: the spec-level owner map assigning user 10 as the owner of
every project of `c4DB`. -/
def c4ProjectOwner : Nat → Nat := fun _ => 10

/-- C3 helper: a custom workspace role whose capability map contains the
literal `can_view_project` key. -/
def c3OverrideRole : WorkspaceRoleRow :=
  ⟨4, "custom", 1, [("can_view_project", true)]⟩

/-- C3 helper database: workspace 1 owned by user 10; project 3 is
**private** (`is_public = false`); user 2 is an active workspace member
holding `c3OverrideRole` and is not a project member. -/
def c3DB : DB :=
  { users := [⟨10, "owner@example.com"⟩, ⟨2, "member@example.com"⟩]
    workspaces := [⟨1, 10, true⟩]
    roles := [c3OverrideRole]
    members := [⟨1, 2, 1, some c3OverrideRole, true⟩]
    projects := [⟨3, 1, false, true, true⟩]
    projectMembers := [] }

/-- C3 witness helper database: as `c3DB`, but user 2 holds the seeded
"user" role instead of the custom override role. -/
def c3WitnessDB : DB :=
  { users := [⟨10, "owner@example.com"⟩, ⟨2, "member@example.com"⟩]
    workspaces := [⟨1, 10, true⟩]
    roles := [⟨6, "user", 1, userRolePermissions⟩]
    members := [⟨1, 2, 1, some ⟨6, "user", 1, userRolePermissions⟩, true⟩]
    projects := [⟨3, 1, false, true, true⟩]
    projectMembers := [] }

/-- C5 helper: the seeded admin role of workspace 1. -/
def c5AdminRole : WorkspaceRoleRow :=
  ⟨5, "admin", 1, adminRolePermissions⟩

/-- C5 helper: the seeded "user" role of workspace 1. -/
def c5UserRole : WorkspaceRoleRow :=
  ⟨6, "user", 1, userRolePermissions⟩

/-- C5 helper database: workspace 1 owned by user 10, who holds **no**
membership row; user 2 is an active member with the "user" role. -/
def c5DB : DB :=
  { users := [⟨10, "owner@example.com"⟩, ⟨2, "member@example.com"⟩]
    workspaces := [⟨1, 10, true⟩]
    roles := [c5AdminRole, c5UserRole]
    members := [⟨7, 2, 1, some c5UserRole, true⟩]
    projects := []
    projectMembers := [] }

/-- C5 helper: the ownership-transfer request moving workspace 1 from
user 10 to user 2 (resolved by user id). -/
def c5Result : Nat × DB :=
  workspaceOwnerChangePost c5DB 1 (some 2) none none

/-- C7 helper: the seeded admin role of workspace 1. -/
def c7AdminRole : WorkspaceRoleRow :=
  ⟨5, "admin", 1, adminRolePermissions⟩

/-- C7 helper: the seeded "user" role of workspace 1. -/
def c7UserRole : WorkspaceRoleRow :=
  ⟨6, "user", 1, userRolePermissions⟩

/-- C7 helper database: workspace 1 owned by user 10; user 3 is an active
member holding the admin role, and user 4 is an active member also holding
the admin role (the role-change target). -/
def c7DB : DB :=
  { users := [⟨10, "owner@example.com"⟩, ⟨3, "actor@example.com"⟩, ⟨4, "target@example.com"⟩]
    workspaces := [⟨1, 10, true⟩]
    roles := [c7AdminRole, c7UserRole]
    members := [⟨2, 3, 1, some c7AdminRole, true⟩, ⟨3, 4, 1, some c7AdminRole, true⟩]
    projects := []
    projectMembers := [] }

/-- C10 helper database: workspace 1 owned by user 10; user 2 is an active
member holding the seeded admin role. -/
def c10DB : DB :=
  { users := [⟨10, "owner@example.com"⟩, ⟨2, "admin@example.com"⟩]
    workspaces := [⟨1, 10, true⟩]
    roles := [⟨5, "admin", 1, adminRolePermissions⟩]
    members := [⟨1, 2, 1, some ⟨5, "admin", 1, adminRolePermissions⟩, true⟩]
    projects := []
    projectMembers := [] }

/-- `k` successive `verify_code` calls with the same code, keeping only the
cache state. -/
def verifyIter (h : String → String) (uid : Nat) (code : String) :
    Nat → AuthCodeCache → AuthCodeCache
  | 0, s => s
  | Nat.succ n, s => (verify_code h (verifyIter h uid code n s) uid code).2

end Lobby

namespace Lobby

/-- C1: whenever the request resolves to an existing workspace whose
`owner` field equals the authenticated actor, `HasWorkspacePermission.has_permission`
returns `True` — for every HTTP method and every required capability, and
for every database, hence also when the actor has no `WorkspaceMember` row
or only an inactive one. -/
theorem c1_owner_is_always_allowed (db : DB) (user : Nat) (method : String)
    (wid : Nat) (dataWorkspaceId : Option Nat) (required : Option String)
    (w : WorkspaceRow)
    (hwid : wid ≠ 0)
    (hfind : findWorkspace db wid = some w)
    (howner : w.owner = user) :
    hasWorkspacePermission db user method (some wid) dataWorkspaceId required = .ok true := by
  have h1 : truthyNat (some wid) = true := by simp [truthyNat, hwid]
  simp [hasWorkspacePermission, pyOrNat, h1, hfind, howner]

/-- Witness for C1 at a concrete database: the owner of workspace 1 holds
only an inactive, role-less membership row and still gets `True` for a
DELETE request with an explicit management capability. -/
theorem c1_owner_is_always_allowed_witness :
    (1 : Nat) ≠ 0 ∧ findWorkspace c1DB 1 = some ⟨1, 10, true⟩ ∧
      hasWorkspacePermission c1DB 10 "DELETE" (some 1) none (some "can_delete_workspace") =
        .ok true :=
  ⟨by decide, by decide,
    c1_owner_is_always_allowed c1DB 10 "DELETE" 1 none (some "can_delete_workspace")
      ⟨1, 10, true⟩ (by decide) (by decide) (by decide)⟩

/-- C2: the workspace permission check evaluated at the failing input.  A
PUT by user 2 — whose only membership in workspace 1 is deactivated —
resolves the `can_edit_workspace` capability against the stored role and
returns `True`: the member lookup of `HasWorkspacePermission.has_permission`
carries no `is_active` filter, so a deactivated member is **not** denied,
contradicting the claim and spec section 4.4 step 2 / property P3. -/
theorem c2_inactive_member_is_granted :
    hasWorkspacePermission c2DB 2 "PUT" (some 1) none none = .ok true ∧
      findWorkspaceMember c2DB 2 1 = some ⟨1, 2, 1, some c2AdminRole, false⟩ ∧
      (findWorkspaceMember c2DB 2 1).map WorkspaceMemberRow.is_active = some false ∧
      findWorkspace c2DB 1 = some ⟨1, 10, true⟩ ∧ (10 : Nat) ≠ 2 :=
  ⟨rfl, rfl, rfl, rfl, by decide⟩

/-- C6: the workspace permission check evaluated at the failing input.
For an active member with a null role and a capability outside the
always-allowed set (`can_edit_workspace`, resolved from PUT), the check
does not return a decision: `member.role.settings` dereferences the null
role and raises `AttributeError`, contradicting the claim and spec
section 4.4 step 5 (a null role should simply yield Deny). -/
theorem c6_null_role_raises :
    hasWorkspacePermission c6DB 2 "PUT" (some 1) none none = .error .attributeError ∧
      findWorkspaceMember c6DB 2 1 = some ⟨1, 2, 1, none, true⟩ ∧
      DEFAULT_ALWAYS_ALLOWED_PERMISSIONS.contains "can_edit_workspace" = false :=
  ⟨rfl, rfl, rfl⟩

/-- C4: the project permission check evaluated at the failing input.  The
`Project` model of `src/project/models.py` declares no `owner` field, so
`HasProjectPermission.has_permission` raises `AttributeError` at
`project.owner` for every request that reaches an existing project — the
owner of project 1 is never answered `Allow`.  Had the model carried the
`owner (User)` field the spec lists (and that `project/views.py` and
`project/serializers.py` also read), the very same decision procedure
would return `True` for the owner. -/
theorem c4_missing_owner_field_raises :
    hasProjectPermissionSrc c4DB 10 "GET" (some 1) none none = .error .attributeError ∧
      hasProjectPermission c4ProjectOwner c4DB 10 "GET" (some 1) none none = .ok true ∧
      findProject c4DB 1 = some ⟨1, 1, true, true, true⟩ :=
  ⟨rfl, rfl, rfl⟩

/-- C3 counterexample: a workspace-level role override *does* make a
private project visible.  User 2 is not the owner of private project 3 and
not a project member, yet the viewing check returns `True`, because after
the visibility branch fails the code falls through to the generic
`role_settings.get(required_permission, False)` lookup, and the stored
role grants the literal `can_view_project` key. -/
theorem c3_workspace_role_override_reveals_private_project :
    hasProjectPermission (fun _ => 10) c3DB 2 "GET" (some 3) none none = .ok true ∧
      (findProject c3DB 3).map ProjectRow.is_public = some false ∧
      isActiveProjectMember c3DB 3 2 = false ∧
      (10 : Nat) ≠ 2 :=
  ⟨rfl, rfl, rfl, by decide⟩

/-- C3 as amended: for a private project, an actor who is not the project
owner and not an active project member is denied the viewing capability
**provided** the capability map of their workspace role does not contain a
true literal `can_view_project` entry; in particular
`can_view_public_projects` never reveals a private project.  (The project
owner read is the spec-modelled field, see `specProjectOwnerRead`.) -/
theorem c3_private_project_denied_without_literal_key
    (db : DB) (projectOwner : Nat → Nat) (user pid : Nat) (p : ProjectRow)
    (m : WorkspaceMemberRow)
    (hpid : pid ≠ 0)
    (hp : findProject db pid = some p)
    (hpriv : p.is_public = false)
    (hown : projectOwner p.id ≠ user)
    (hmem : findActiveWorkspaceMember db user p.workspace = some m)
    (hnpm : isActiveProjectMember db p.id user = false)
    (hrole : settingsGet (match m.role with
      | some role => role.settings
      | none => []) "can_view_project" = false) :
    hasProjectPermission projectOwner db user "GET" (some pid) none none = .ok false := by
  have h1 : truthyNat (some pid) = true := by simp [truthyNat, hpid]
  simp [hasProjectPermission, hasProjectPermissionCore, specProjectOwnerRead, pyOrNat, pyOrStr,
    truthyStr, projectMethodPermission, DEFAULT_ALWAYS_ALLOWED_PERMISSIONS, h1, hp, hown, hmem,
    hnpm, hpriv, hrole]

/-- Witness for the amended C3 at a concrete database: user 2, active
workspace member with the seeded "user" role, cannot view the private
project 3. -/
theorem c3_private_project_denied_witness :
    (3 : Nat) ≠ 0 ∧
      hasProjectPermission (fun _ => 10) c3WitnessDB 2 "GET" (some 3) none none = .ok false :=
  ⟨by decide,
    c3_private_project_denied_without_literal_key c3WitnessDB (fun _ => 10) 2 3
      ⟨3, 1, false, true, true⟩ ⟨1, 2, 1, some ⟨6, "user", 1, userRolePermissions⟩, true⟩
      (by decide) (by decide) (by decide) (by decide) (by decide) (by decide) (by decide)⟩

/-- C5 counterexample: a successful ownership transfer does **not** leave
the outgoing owner with a membership row.  In `c5DB` the outgoing owner
(user 10) has no `WorkspaceMember` row; the transfer to user 2 succeeds
(200), promotes user 2 to the admin role and flips the owner pointer, yet
afterwards user 10 still has no membership row — no escrow row is created
before the `owner` pointer is flipped, contradicting the third
postcondition of the claim. -/
theorem c5_outgoing_owner_left_without_membership :
    c5Result.1 = 200 ∧
      (findWorkspace c5Result.2 1).map WorkspaceRow.owner = some 2 ∧
      (findWorkspaceMember c5Result.2 2 1).map (fun m => m.role.map WorkspaceRoleRow.name) =
        some (some "admin") ∧
      c5DB.members.all (fun m => m.user != 10) = true ∧
      c5Result.2.members.all (fun m => m.user != 10) = true :=
  ⟨rfl, rfl, rfl, rfl, rfl⟩

/-- C5 as amended: after a successful transfer of workspace `w` to user
`u` (resolved by user id), the new owner's membership row carries the
admin role and the workspace's owner field equals `u`; the member list is
only re-rolled pointwise — every other membership row, in particular any
row of the outgoing owner, is untouched, and **no** row is created, so an
outgoing owner without a pre-existing membership row ends up with none
(the escrow step of spec section 4.5 step 3 is absent). -/
theorem c5_transfer_updates_only_new_owner
    (db : DB) (wid u : Nat) (w : WorkspaceRow) (ar : WorkspaceRoleRow)
    (urow : UserRow) (mrow : WorkspaceMemberRow)
    (hu : u ≠ 0)
    (hw : findWorkspace db wid = some w)
    (har : db.roles.find? (fun r => r.name == "admin" && r.workspace == w.id) = some ar)
    (huser : findUserById db u = some urow)
    (hmem : db.members.find? (fun m => m.user == urow.id && m.workspace == w.id) = some mrow) :
    workspaceOwnerChangePost db wid (some u) none none =
      (200, updateWorkspaceOwner (updateMemberRole db mrow.id (some ar)) w.id urow.id) ∧
      (updateWorkspaceOwner (updateMemberRole db mrow.id (some ar)) w.id urow.id).members =
        db.members.map (fun m => if m.id == mrow.id then { m with role := some ar } else m) ∧
      (updateWorkspaceOwner (updateMemberRole db mrow.id (some ar)) w.id urow.id).workspaces =
        db.workspaces.map (fun x => if x.id == w.id then { x with owner := urow.id } else x) := by
  refine ⟨?_, ?_, ?_⟩
  · simp [workspaceOwnerChangePost, getUserAndMember, countTruthy, truthyNat, truthyStr,
      hu, hw, har, huser, hmem]
  · simp [updateWorkspaceOwner, updateMemberRole]
  · simp [updateWorkspaceOwner, updateMemberRole]

/-- Witness for the amended C5 at the concrete database `c5DB`. -/
theorem c5_transfer_updates_only_new_owner_witness :
    (2 : Nat) ≠ 0 ∧
      workspaceOwnerChangePost c5DB 1 (some 2) none none =
        (200, updateWorkspaceOwner (updateMemberRole c5DB 7 (some c5AdminRole)) 1 2) :=
  ⟨by decide,
    (c5_transfer_updates_only_new_owner c5DB 1 2 ⟨1, 10, true⟩ c5AdminRole
      ⟨2, "member@example.com"⟩ ⟨7, 2, 1, some c5UserRole, true⟩
      (by decide) (by decide) (by decide) (by decide) (by decide)).1⟩

/-- C7: for a well-formed role-change request targeting a member whose
stored role is named "admin", an actor who is an active member (with any
stored role and any capability map) but not the workspace owner gets 403 —
either already at the `can_change_roles` capability gate, or, when their
role grants that capability, at the owner-only guard inside `patch` — and
the database is unchanged; the same request issued by the workspace owner
passes both checks and updates the target's role (200). -/
theorem c7_changing_admin_role_requires_ownership
    (db : DB) (wid : Nat) (w : WorkspaceRow) (actor : Nat)
    (actorMem : WorkspaceMemberRow) (aRole : WorkspaceRoleRow)
    (targetUserId : Nat) (tu : UserRow) (tm : WorkspaceMemberRow)
    (tRole : WorkspaceRoleRow) (s : String) (nr : WorkspaceRoleRow)
    (hwid : wid ≠ 0)
    (hw : findWorkspace db wid = some w)
    (hnotowner : w.owner ≠ actor)
    (hactorMem : findWorkspaceMember db actor w.id = some actorMem)
    (hactorRole : actorMem.role = some aRole)
    (htid : targetUserId ≠ 0)
    (htu : findUserById db targetUserId = some tu)
    (htm : db.members.find? (fun m => m.workspace == w.id && m.user == tu.id) = some tm)
    (hact : tm.is_active = true)
    (htr : tm.role = some tRole)
    (hadmin : tRole.name = "admin")
    (hs : pyStrip s ≠ "")
    (hnr : db.roles.find? (fun r => r.workspace == w.id && r.name == pyLower (pyStrip s)) =
      some nr) :
    changeWorkspaceRoleEndpoint db actor wid (some targetUserId) none (some s) =
        .ok (403, db) ∧
      changeWorkspaceRoleEndpoint db w.owner wid (some targetUserId) none (some s) =
        .ok (200, updateMemberRole db tm.id (some nr)) := by
  have h1 : truthyNat (some wid) = true := by simp [truthyNat, hwid]
  constructor
  · cases hcap : settingsGet aRole.settings "can_change_roles" with
    | false =>
      simp [changeWorkspaceRoleEndpoint, hasWorkspacePermission, pyOrNat, pyOrStr, truthyNat,
        truthyStr, h1, hwid, hw, hnotowner, hactorMem, hactorRole, hcap,
        DEFAULT_ALWAYS_ALLOWED_PERMISSIONS, changeWorkspaceRoleRequiredPermission]
    | true =>
      simp [changeWorkspaceRoleEndpoint, hasWorkspacePermission, pyOrNat, pyOrStr, truthyNat,
        truthyStr, h1, hwid, hw, hnotowner, hactorMem, hactorRole, hcap,
        DEFAULT_ALWAYS_ALLOWED_PERMISSIONS, changeWorkspaceRoleRequiredPermission,
        changeWorkspaceRolePatch, countTruthy, htid, hs, hnr, htu, htm, hact, htr, hadmin]
  · simp [changeWorkspaceRoleEndpoint, hasWorkspacePermission, pyOrNat, pyOrStr, truthyNat,
      truthyStr, h1, hwid, hw, DEFAULT_ALWAYS_ALLOWED_PERMISSIONS,
      changeWorkspaceRoleRequiredPermission, changeWorkspaceRolePatch, countTruthy, htid, hs,
      hnr, htu, htm, hact, htr, hadmin]

/-- Witness for C7 at the concrete database `c7DB`: active admin user 3
cannot change the role of fellow admin user 4 to "user" (403 both at the
gate — the seeded admin map has no `can_change_roles` key — and by the
owner-only guard), while owner 10 can (200). -/
theorem c7_changing_admin_role_requires_ownership_witness :
    (10 : Nat) ≠ 3 ∧
      changeWorkspaceRoleEndpoint c7DB 3 1 (some 4) none (some "user") = .ok (403, c7DB) ∧
      changeWorkspaceRoleEndpoint c7DB 10 1 (some 4) none (some "user") =
        .ok (200, updateMemberRole c7DB 3 (some c7UserRole)) :=
  ⟨by decide,
    (c7_changing_admin_role_requires_ownership c7DB 1 ⟨1, 10, true⟩ 3
      ⟨2, 3, 1, some c7AdminRole, true⟩ c7AdminRole 4 ⟨4, "target@example.com"⟩
      ⟨3, 4, 1, some c7AdminRole, true⟩ c7AdminRole "user" c7UserRole
      (by decide) (by decide) (by decide) (by decide) (by decide) (by decide) (by decide)
      (by decide) (by decide) (by decide) (by decide) (by decide) (by decide)).1,
    (c7_changing_admin_role_requires_ownership c7DB 1 ⟨1, 10, true⟩ 3
      ⟨2, 3, 1, some c7AdminRole, true⟩ c7AdminRole 4 ⟨4, "target@example.com"⟩
      ⟨3, 4, 1, some c7AdminRole, true⟩ c7AdminRole "user" c7UserRole
      (by decide) (by decide) (by decide) (by decide) (by decide) (by decide) (by decide)
      (by decide) (by decide) (by decide) (by decide) (by decide) (by decide)).2⟩

/-- C10: the endpoint capabilities `can_invite_users` (adding and toggling
workspace members) and `can_change_roles` (role changes) appear in no
seeded capability map of `DEFAULT_ROLE_PERMISSIONS`, so for an actor whose
membership carries any of the three seeded role maps — including the admin
map — the workspace permission check answers `False` by the
unknown-key-defaults-to-deny lookup, while the workspace owner is allowed
by the ownership override. -/
theorem c10_member_endpoints_denied_to_seeded_roles
    (db : DB) (wid : Nat) (w : WorkspaceRow) (user : Nat)
    (member : WorkspaceMemberRow) (r : WorkspaceRoleRow) (method req : String)
    (hwid : wid ≠ 0)
    (hw : findWorkspace db wid = some w)
    (hnotowner : w.owner ≠ user)
    (hmem : findWorkspaceMember db user w.id = some member)
    (hrole : member.role = some r)
    (hseed : r.settings = adminRolePermissions ∨ r.settings = userRolePermissions ∨
      r.settings = clientRolePermissions)
    (hreq : req = addWorkspaceMemberRequiredPermission ∨
      req = changeWorkspaceRoleRequiredPermission) :
    hasWorkspacePermission db user method (some wid) none (some req) = .ok false ∧
      hasWorkspacePermission db w.owner method (some wid) none (some req) = .ok true := by
  have h1 : truthyNat (some wid) = true := by simp [truthyNat, hwid]
  constructor
  · rcases hreq with hreq | hreq <;> rcases hseed with hseed | hseed | hseed <;>
      simp [hasWorkspacePermission, pyOrNat, pyOrStr, truthyNat, truthyStr, h1, hwid, hw,
        hnotowner, hmem, hrole, hreq, hseed, DEFAULT_ALWAYS_ALLOWED_PERMISSIONS,
        addWorkspaceMemberRequiredPermission, changeWorkspaceRoleRequiredPermission,
        settingsGet, adminRolePermissions, userRolePermissions, clientRolePermissions]
  · rcases hreq with hreq | hreq <;>
      simp [hasWorkspacePermission, pyOrNat, pyOrStr, truthyNat, truthyStr, h1, hwid, hw, hreq,
        addWorkspaceMemberRequiredPermission, changeWorkspaceRoleRequiredPermission]

/-- Witness for C10 at the concrete database `c10DB`: user 2, an active
member holding the seeded admin role, is denied `can_invite_users`, while
owner 10 is allowed. -/
theorem c10_member_endpoints_denied_witness :
    (10 : Nat) ≠ 2 ∧
      hasWorkspacePermission c10DB 2 "POST" (some 1) none (some "can_invite_users") =
        .ok false ∧
      hasWorkspacePermission c10DB 10 "POST" (some 1) none (some "can_invite_users") =
        .ok true :=
  ⟨by decide,
    (c10_member_endpoints_denied_to_seeded_roles c10DB 1 ⟨1, 10, true⟩ 2
      ⟨1, 2, 1, some ⟨5, "admin", 1, adminRolePermissions⟩, true⟩
      ⟨5, "admin", 1, adminRolePermissions⟩ "POST" "can_invite_users"
      (by decide) (by decide) (by decide) (by decide) (by decide)
      (Or.inl (by decide)) (Or.inl (by decide))).1,
    (c10_member_endpoints_denied_to_seeded_roles c10DB 1 ⟨1, 10, true⟩ 2
      ⟨1, 2, 1, some ⟨5, "admin", 1, adminRolePermissions⟩, true⟩
      ⟨5, "admin", 1, adminRolePermissions⟩ "POST" "can_invite_users"
      (by decide) (by decide) (by decide) (by decide) (by decide)
      (Or.inl (by decide)) (Or.inl (by decide))).2⟩

/-- Boolean form of disequality for lawful `==`. -/
theorem beq_false_of_ne {α : Type} [BEq α] [LawfulBEq α] {a b : α} (hab : a ≠ b) :
    (a == b) = false := by
  cases hb : a == b with
  | false => rfl
  | true => exact absurd (eq_of_beq hb) hab

/-- A `verify_code` call with a non-matching code when no attempt counter
exists: the counter is created at 1 with the 600s expiry and the call
fails, leaving the stored code in place. -/
theorem verify_code_wrong_from_none (h : String → String) (uid : Nat)
    (correct wrong : String) (s : AuthCodeCache)
    (ha : s.attempts uid = none)
    (hc : s.code uid = some (h correct, CODE_TTL))
    (hne : (h correct == h wrong) = false) :
    verify_code h s uid wrong =
      (false, { s with attempts := updFun s.attempts uid (some (1, CODE_TTL)) }) := by
  cases hz : h correct == "" with
  | true => simp [verify_code, ha, hc, hz, MAX_ATTEMPTS]
  | false => simp [verify_code, ha, hc, hz, hne, MAX_ATTEMPTS]

/-- A `verify_code` call with a non-matching code when the attempt counter
holds `n` with `n + 1` still within the cap: the counter is incremented
keeping its timeout and the call fails, leaving the stored code in place. -/
theorem verify_code_wrong_from_count (h : String → String) (uid : Nat)
    (correct wrong : String) (s : AuthCodeCache) (n ttl : Nat)
    (hn : n ≠ 0) (hcap : n + 1 ≤ MAX_ATTEMPTS)
    (ha : s.attempts uid = some (n, ttl))
    (hc : s.code uid = some (h correct, CODE_TTL))
    (hne : (h correct == h wrong) = false) :
    verify_code h s uid wrong =
      (false, { s with attempts := updFun s.attempts uid (some (n + 1, ttl)) }) := by
  cases hz : h correct == "" with
  | true =>
    simp only [verify_code, ha, hn, bne_iff_ne, ne_eq, not_false_eq_true, if_true]
    rw [if_neg (by omega)]
    simp [hc, hz]
  | false =>
    simp only [verify_code, ha, hn, bne_iff_ne, ne_eq, not_false_eq_true, if_true]
    rw [if_neg (by omega)]
    simp [hc, hz, hne]

/-- A `verify_code` call once the incremented counter exceeds the cap: the
counter still increments but the call fails **without comparing**, leaving
the stored code in place. -/
theorem verify_code_locked (h : String → String) (uid : Nat) (code : String)
    (s : AuthCodeCache) (n ttl : Nat)
    (hn : n ≠ 0) (hcap : MAX_ATTEMPTS < n + 1)
    (ha : s.attempts uid = some (n, ttl)) :
    verify_code h s uid code =
      (false, { s with attempts := updFun s.attempts uid (some (n + 1, ttl)) }) := by
  simp only [verify_code, ha, hn, bne_iff_ne, ne_eq, not_false_eq_true, if_true]
  rw [if_pos (by omega)]

/-- State invariant of the failing chain: after `store_code` and `k ≤ 5`
wrong `verify_code` calls, the attempt counter reads `k` (with the 600s
expiry) and the stored code hash is untouched. -/
theorem verifyIter_wrong_state (h : String → String) (uid : Nat)
    (correct wrong : String) (s0 : AuthCodeCache)
    (hne : (h correct == h wrong) = false) :
    ∀ k, k ≤ MAX_ATTEMPTS →
      (verifyIter h uid wrong k (store_code h s0 uid correct)).attempts uid =
          (if k = 0 then none else some (k, CODE_TTL)) ∧
        (verifyIter h uid wrong k (store_code h s0 uid correct)).code uid =
          some (h correct, CODE_TTL) := by
  intro k
  induction k with
  | zero => intro _; simp [verifyIter, store_code, updFun]
  | succ k ih =>
    intro hk
    obtain ⟨ha, hc⟩ := ih (Nat.le_of_succ_le hk)
    by_cases hk0 : k = 0
    · subst hk0
      simp only [verifyIter] at ha hc ⊢
      simp at ha
      rw [verify_code_wrong_from_none h uid correct wrong _ ha hc hne]
      simp [updFun, hc]
    · rw [if_neg hk0] at ha
      simp only [verifyIter] at ha hc ⊢
      rw [verify_code_wrong_from_count h uid correct wrong _ k CODE_TTL hk0 hk ha hc hne]
      simp [updFun, hc]

/-- C8: lockout.  After `store_code`, five consecutive `verify_code` calls
with a wrong code all return `false`; the attempt counter is created at 1
with the 600-second expiry on the first call; and a sixth call with the
**correct** code still returns `false` — the counter increments to 6 and
the stored (matching) code hash is neither compared nor deleted. -/
theorem c8_lockout_after_five_failures (h : String → String) (uid : Nat)
    (correct wrong : String) (s0 : AuthCodeCache)
    (hne : h wrong ≠ h correct) :
    (verify_code h (store_code h s0 uid correct) uid wrong).1 = false ∧
      (verify_code h (verifyIter h uid wrong 1 (store_code h s0 uid correct)) uid wrong).1 =
        false ∧
      (verify_code h (verifyIter h uid wrong 2 (store_code h s0 uid correct)) uid wrong).1 =
        false ∧
      (verify_code h (verifyIter h uid wrong 3 (store_code h s0 uid correct)) uid wrong).1 =
        false ∧
      (verify_code h (verifyIter h uid wrong 4 (store_code h s0 uid correct)) uid wrong).1 =
        false ∧
      (verifyIter h uid wrong 1 (store_code h s0 uid correct)).attempts uid =
        some (1, CODE_TTL) ∧
      (verify_code h (verifyIter h uid wrong 5 (store_code h s0 uid correct)) uid correct).1 =
        false ∧
      (verify_code h (verifyIter h uid wrong 5 (store_code h s0 uid correct)) uid
          correct).2.attempts uid = some (6, CODE_TTL) ∧
      (verify_code h (verifyIter h uid wrong 5 (store_code h s0 uid correct)) uid
          correct).2.code uid = some (h correct, CODE_TTL) := by
  have hne' : (h correct == h wrong) = false := beq_false_of_ne (Ne.symm hne)
  have chain := verifyIter_wrong_state h uid correct wrong s0 hne'
  have hstep : ∀ k, k < MAX_ATTEMPTS →
      (verify_code h (verifyIter h uid wrong k (store_code h s0 uid correct)) uid wrong).1 =
        false := by
    intro k hk
    obtain ⟨ha, hc⟩ := chain k (Nat.le_of_lt hk)
    by_cases hk0 : k = 0
    · subst hk0
      simp only [if_pos rfl] at ha
      rw [verify_code_wrong_from_none h uid correct wrong _ ha hc hne']
    · rw [if_neg hk0] at ha
      rw [verify_code_wrong_from_count h uid correct wrong _ k CODE_TTL hk0 hk ha hc hne']
  obtain ⟨ha5, hc5⟩ := chain 5 (by simp [MAX_ATTEMPTS])
  rw [if_neg (by omega)] at ha5
  have hlock := verify_code_locked h uid correct _ 5 CODE_TTL
    (by omega) (by simp [MAX_ATTEMPTS]) ha5
  refine ⟨hstep 0 (by simp [MAX_ATTEMPTS]), hstep 1 (by simp [MAX_ATTEMPTS]),
    hstep 2 (by simp [MAX_ATTEMPTS]), hstep 3 (by simp [MAX_ATTEMPTS]),
    hstep 4 (by simp [MAX_ATTEMPTS]), ?_, ?_, ?_, ?_⟩
  · simpa using (chain 1 (by simp [MAX_ATTEMPTS])).1
  · rw [hlock]
  · rw [hlock]; simp [updFun, MAX_ATTEMPTS]
  · rw [hlock]; exact hc5

/-- Witness for C8 at concrete inputs: user 7 stores code "123456" under
the hash function prepending a mark; five wrong attempts with "000000"
fail, and the sixth attempt with the correct code fails too, its stored
hash intact. -/
theorem c8_lockout_witness :
    (fun x => "#" ++ x) "000000" ≠ (fun x => "#" ++ x) "123456" ∧
      (verify_code (fun x => "#" ++ x)
        (verifyIter (fun x => "#" ++ x) 7 "000000" 5
          (store_code (fun x => "#" ++ x) emptyAuthCache 7 "123456")) 7 "123456").1 = false :=
  ⟨by decide,
    (c8_lockout_after_five_failures (fun x => "#" ++ x) 7 "123456" "000000" emptyAuthCache
      (by decide)).2.2.2.2.2.2.1⟩

/-- C9: one-time use.  After `store_code(u, c)`, a `verify_code(u, c)` call
returns `true` and deletes both the stored code hash and the attempt
counter, and an immediately following second `verify_code(u, c)` returns
`false`. -/
theorem c9_code_is_one_time (h : String → String) (uid : Nat) (c : String)
    (s0 : AuthCodeCache) (hnz : h c ≠ "") :
    (verify_code h (store_code h s0 uid c) uid c).1 = true ∧
      (verify_code h (store_code h s0 uid c) uid c).2.code uid = none ∧
      (verify_code h (store_code h s0 uid c) uid c).2.attempts uid = none ∧
      (verify_code h ((verify_code h (store_code h s0 uid c) uid c).2) uid c).1 = false := by
  have hnz' : (h c == "") = false := beq_false_of_ne hnz
  refine ⟨?_, ?_, ?_, ?_⟩ <;>
    simp [verify_code, store_code, updFun, hnz', MAX_ATTEMPTS]

/-- Witness for C9 at concrete inputs: user 7 stores "123456"; the first
verification succeeds and consumes the code, the second fails. -/
theorem c9_code_is_one_time_witness :
    (fun x => "#" ++ x) "123456" ≠ "" ∧
      (verify_code (fun x => "#" ++ x)
        (store_code (fun x => "#" ++ x) emptyAuthCache 7 "123456") 7 "123456").1 = true ∧
      (verify_code (fun x => "#" ++ x)
        ((verify_code (fun x => "#" ++ x)
          (store_code (fun x => "#" ++ x) emptyAuthCache 7 "123456") 7 "123456").2) 7
        "123456").1 = false := by
  have hmain := c9_code_is_one_time (fun x => "#" ++ x) 7 "123456" emptyAuthCache (by decide)
  exact ⟨by decide, hmain.1, hmain.2.2.2⟩

end Lobby
